import Mathlib

/-!
# Verification of the x402-exec settlement core

This development embeds the settlement core of the `x402-exec` repository in
Lean 4 and proves properties of it.

The embedded pieces are:

* the fee / gas-limit engine (`gas-cost.ts`): `calculateEffectiveGasLimit`,
  `getGasLimit`, `getHookType`, `isHookAllowed`, `convertNativeToUsd`,
  `convertUsdToToken`, `calculateMinFacilitatorFee`;
* the settlement engine (`settlement.ts`): `settleWithRouter` together with
  its helpers `validateTokenAddress`, `validateSettlementRouter`;
* the verify route handler (`routes/verify.ts`): the `POST /verify` body;
* the on-chain `SettlementHub` contract (`SettlementHub.sol`):
  `settleAndExecute`, `calculateContextKey`, `isSettled`.

JavaScript conventions mirrored by the embedding:

* Decimal numeric strings (token amounts, USD amounts, gas prices) are
  modelled by their numeric value (`ℚ` or `Nat`); `parseFloat` / `BigInt`
  round-trips on canonical decimal integer strings are identities, so the
  conversions disappear.  `Number.toFixed(6)` is modelled by rounding to
  the nearest multiple of `10⁻⁶`.
* `a || b` on numbers and strings falls back on `0` resp. `""` (JS
  falsiness); this is modelled explicitly by the `jsOr*` helpers.
* `string.includes(pat)` is modelled via `String.splitOn`.
* Effectful calls into external collaborators (the x402 SDK `verify`, the
  RPC client, price and gas oracles, the balance checker) are modelled by
  their outcomes, carried in an environment record; a `.error ()` outcome
  models the call throwing.
* `keccak256` commitments and context keys are modelled by abstract hash
  functions carried in the environment; the engine only ever compares
  their outputs.
-/

namespace X402

/-! ## JavaScript helpers -/

/-- Whether a character list starts with the given pattern. -/
def charsStartWith : List Char → List Char → Bool
  | [], _ => true
  | _ :: _, [] => false
  | p :: ps, c :: cs => p == c && charsStartWith ps cs

/-- Whether a character list contains the given pattern as a contiguous
sublist. -/
def charsContain (pat : List Char) : List Char → Bool
  | [] => pat.isEmpty
  | c :: rest => charsStartWith pat (c :: rest) || charsContain pat rest

/-- JS `a.includes(b)` on strings (contiguous substring test). -/
def strIncludes (s pat : String) : Bool :=
  charsContain pat.data s.data

/-- JS `a.toLowerCase()` (structurally recursive over the character list,
so that concrete instances evaluate). -/
def strToLower (s : String) : String :=
  ⟨s.data.map Char.toLower⟩

/-- JS `x || d` for an optionally-present number (`0` is falsy). -/
def jsOrNat (x : Option Nat) (d : Nat) : Nat :=
  match x with
  | some v => if v = 0 then d else v
  | none => d

/-- JS `x || d` for an optionally-present rational (`0` is falsy). -/
def jsOrQ (x : Option ℚ) (d : ℚ) : ℚ :=
  match x with
  | some v => if v = 0 then d else v
  | none => d

/-- JS `x || d` for an optionally-present string (`""` is falsy). -/
def jsOrStr (x : Option String) (d : String) : String :=
  match x with
  | some v => if v = "" then d else v
  | none => d

/-- JS `Number.toFixed(6)` followed by `parseFloat`: round to the nearest
multiple of `10⁻⁶` (ties handled by `round`). -/
def roundTo6 (q : ℚ) : ℚ :=
  (round (q * 1000000) : ℤ) / 1000000

theorem roundTo6_self_of_den_dvd (q : ℚ) (h : ∃ n : ℤ, q = (n : ℚ) / 1000000) :
    roundTo6 q = q := by
  obtain ⟨n, rfl⟩ := h
  have h6 : ((1000000 : ℚ)) ≠ 0 := by norm_num
  rw [roundTo6, div_mul_cancel₀ _ h6]
  rw [round_intCast]

deriving instance DecidableEq for Except

/-! ## Data model -/

/-- EIP-3009 authorization carried in the payment payload.
Addresses and 32-byte values are hex strings; the numeric fields are the
values of their decimal string representations. -/
structure Authorization where
  fromAddr : String
  toAddr : String
  value : Nat
  validAfter : Nat
  validBefore : Nat
  nonce : String
  deriving DecidableEq, Repr

/-- Parsed settlement `extra` parameters (`parseSettlementExtra` result). -/
structure SettlementExtra where
  settlementRouter : String
  salt : String
  payTo : String
  facilitatorFee : ℚ
  hook : String
  hookData : String
  deriving DecidableEq, Repr

/-- A network's default asset entry of the network registry. -/
structure NetworkAsset where
  address : String
  decimals : Nat
  deriving DecidableEq, Repr

/-- The part of a `NetworkConfig` consumed by the settlement core. -/
structure NetworkConfig where
  name : String
  chainId : Nat
  defaultAsset : NetworkAsset
  /-- `hooks.transfer`: the built-in transfer hook's address. -/
  hooksTransfer : String
  deriving DecidableEq, Repr

/-- Result of the x402 SDK `verify` call. -/
structure VerifyResult where
  isValid : Bool
  invalidReason : Option String
  payer : Option String
  deriving DecidableEq, Repr

/-- Result of `BalanceChecker.checkBalance`. -/
structure BalanceCheckResult where
  hasSufficient : Bool
  balance : Nat
  required : Nat
  cached : Bool
  deriving DecidableEq, Repr

/-- The transaction receipt fields consumed by the engine. -/
structure Receipt where
  status : String
  gasUsed : Nat
  effectiveGasPrice : Nat
  deriving DecidableEq, Repr

/-- The wire-level settle response (gas metrics, which are
monitoring-only, are not modelled). -/
structure SettleResponse where
  success : Bool
  errorReason : Option String
  transaction : String
  network : String
  payer : String
  deriving DecidableEq, Repr

/-- The arguments of `calculateCommitment` exactly as `settleWithRouter`
assembles them at its call site. -/
structure CommitmentParams where
  chainId : Nat
  hub : String
  asset : String
  fromAddr : String
  value : Nat
  validAfter : Nat
  validBefore : Nat
  salt : String
  payTo : String
  facilitatorFee : ℚ
  hook : String
  hookData : String
  deriving DecidableEq, Repr

/-! ## Gas cost configuration (`gas-cost.ts`) -/

/-- `GasCostConfig` from `gas-cost.ts`.  Record-typed JS maps become
`String → Option _` lookups. -/
structure GasCostConfig where
  minGasLimit : Nat
  maxGasLimit : Nat
  dynamicGasLimitMargin : ℚ
  networkMinGasLimit : String → Option Nat
  hookGasOverhead : String → Option Nat
  safetyMultiplier : ℚ
  validationTolerance : ℚ
  minFacilitatorFeeUsd : ℚ
  hookWhitelistEnabled : Bool
  allowedHooks : String → List String
  networkGasPrice : String → Option Nat
  nativeTokenPrice : String → Option ℚ

/-- `isHookAllowed` from `gas-cost.ts`. -/
def isHookAllowed (network hook : String) (config : GasCostConfig) : Bool :=
  if ¬ config.hookWhitelistEnabled then true
  else
    let allowedHooks := config.allowedHooks network
    allowedHooks.any (fun allowed => strToLower allowed == strToLower hook)

/-- `getHookType` from `gas-cost.ts`.  `getNetworkConfig` throwing (unknown
network) is caught and yields `"custom"`. -/
def getHookType (network hook : String) (configs : String → Option NetworkConfig) : String :=
  match configs network with
  | none => "custom"
  | some networkConfig =>
    if strToLower networkConfig.hooksTransfer == strToLower hook then "transfer" else "custom"

/-- `calculateEffectiveGasLimit` from `gas-cost.ts`.

`facilitatorFee` is the value of the fee's decimal string; `gasPrice` the
value of the gas price string in wei; `nativeTokenPrice` the native token
USD price.  `Number.isFinite` never fails on rationals, so the guard
reduces to `nativeTokenPrice ≤ 0`.  (Division by a zero gas price follows
the rational convention `x / 0 = 0`; none of the theorems below depend on
that corner.) -/
def calculateEffectiveGasLimit (network : String) (facilitatorFee : ℚ)
    (gasPrice : Nat) (nativeTokenPrice : ℚ) (config : GasCostConfig)
    (tokenDecimals : Nat) : ℤ :=
  let feeUSD : ℚ := facilitatorFee / (10 : ℚ) ^ tokenDecimals
  let availableForGasUSD : ℚ := feeUSD * (1 - config.dynamicGasLimitMargin)
  let isFilecoin := strIncludes network "filecoin"
  let baseMinGasLimit := jsOrNat (config.networkMinGasLimit network) config.minGasLimit
  let minGasLimit := if isFilecoin then max baseMinGasLimit 150000000 else baseMinGasLimit
  if nativeTokenPrice ≤ 0 then (minGasLimit : ℤ)
  else
    let availableWei : ℚ := availableForGasUSD / nativeTokenPrice * 10 ^ 18
    let maxAffordableGas : ℤ := ⌊availableWei / (gasPrice : ℚ)⌋
    let effectiveMaxGasLimit := if isFilecoin then 150000000 else config.maxGasLimit
    max (minGasLimit : ℤ) (min maxAffordableGas (effectiveMaxGasLimit : ℤ))

/-- The effective minimum the function enforces (the network-overridable
minimum, raised to 150M on Filecoin-family networks). -/
def effectiveMinGasLimit (network : String) (config : GasCostConfig) : Nat :=
  let baseMinGasLimit := jsOrNat (config.networkMinGasLimit network) config.minGasLimit
  if strIncludes network "filecoin" then max baseMinGasLimit 150000000 else baseMinGasLimit

/-- The effective maximum the function enforces (the configured maximum,
replaced by 150M on Filecoin-family networks). -/
def effectiveMaxGasLimitOf (network : String) (config : GasCostConfig) : Nat :=
  if strIncludes network "filecoin" then 150000000 else config.maxGasLimit

/-- `calculateEffectiveGasLimit` restated through the effective min and max. -/
theorem calculateEffectiveGasLimit_eq (network : String) (facilitatorFee : ℚ)
    (gasPrice : Nat) (nativeTokenPrice : ℚ) (config : GasCostConfig) (tokenDecimals : Nat) :
    calculateEffectiveGasLimit network facilitatorFee gasPrice nativeTokenPrice config
        tokenDecimals =
      if nativeTokenPrice ≤ 0 then (effectiveMinGasLimit network config : ℤ)
      else
        max (effectiveMinGasLimit network config : ℤ)
          (min ⌊facilitatorFee / (10 : ℚ) ^ tokenDecimals * (1 - config.dynamicGasLimitMargin)
                  / nativeTokenPrice * 10 ^ 18 / (gasPrice : ℚ)⌋
            (effectiveMaxGasLimitOf network config : ℤ)) :=
  rfl

theorem calculateEffectiveGasLimit_lower (network : String) (facilitatorFee : ℚ)
    (gasPrice : Nat) (nativeTokenPrice : ℚ) (config : GasCostConfig) (tokenDecimals : Nat) :
    (effectiveMinGasLimit network config : ℤ) ≤
      calculateEffectiveGasLimit network facilitatorFee gasPrice nativeTokenPrice config
        tokenDecimals := by
  rw [calculateEffectiveGasLimit_eq]
  split
  · exact le_refl _
  · exact le_max_left _ _

theorem calculateEffectiveGasLimit_upper (network : String) (facilitatorFee : ℚ)
    (gasPrice : Nat) (nativeTokenPrice : ℚ) (config : GasCostConfig) (tokenDecimals : Nat) :
    calculateEffectiveGasLimit network facilitatorFee gasPrice nativeTokenPrice config
        tokenDecimals ≤
      max (effectiveMinGasLimit network config : ℤ) (effectiveMaxGasLimitOf network config : ℤ) := by
  rw [calculateEffectiveGasLimit_eq]
  split
  · exact le_max_left _ _
  · exact max_le (le_max_left _ _) (le_trans (min_le_right _ _) (le_max_right _ _))

theorem calculateEffectiveGasLimit_of_nonpos_price (network : String) (facilitatorFee : ℚ)
    (gasPrice : Nat) (nativeTokenPrice : ℚ) (config : GasCostConfig) (tokenDecimals : Nat)
    (h : nativeTokenPrice ≤ 0) :
    calculateEffectiveGasLimit network facilitatorFee gasPrice nativeTokenPrice config
        tokenDecimals = (effectiveMinGasLimit network config : ℤ) := by
  rw [calculateEffectiveGasLimit_eq, if_pos h]

theorem calculateEffectiveGasLimit_filecoin (network : String) (facilitatorFee : ℚ)
    (gasPrice : Nat) (nativeTokenPrice : ℚ) (config : GasCostConfig) (tokenDecimals : Nat)
    (hfil : strIncludes network "filecoin" = true)
    (hmin : jsOrNat (config.networkMinGasLimit network) config.minGasLimit ≤ 150000000) :
    calculateEffectiveGasLimit network facilitatorFee gasPrice nativeTokenPrice config
        tokenDecimals = 150000000 := by
  have hminq : effectiveMinGasLimit network config = 150000000 := by
    unfold effectiveMinGasLimit
    rw [if_pos hfil, Nat.max_eq_right hmin]
  have hmaxq : effectiveMaxGasLimitOf network config = 150000000 := by
    unfold effectiveMaxGasLimitOf
    rw [if_pos hfil]
  rw [calculateEffectiveGasLimit_eq, hminq, hmaxq]
  split
  · norm_num
  · rw [max_eq_left (le_trans (min_le_right _ _) (by norm_num))]
    norm_num

/-! ## Fee engine (`gas-cost.ts`) -/

/-- `getGasLimit` from `gas-cost.ts`.  `.error ()` models the function
throwing (hook not whitelisted, or computed limit above the maximum). -/
def getGasLimit (network hook : String) (config : GasCostConfig)
    (configs : String → Option NetworkConfig) : Except Unit Nat :=
  if ¬ isHookAllowed network hook config then .error ()
  else
    let hookType := getHookType network hook configs
    let minGasLimit := jsOrNat (config.networkMinGasLimit network) config.minGasLimit
    let overhead :=
      jsOrNat (config.hookGasOverhead hookType) (jsOrNat (config.hookGasOverhead "custom") 100000)
    let gasLimit := minGasLimit + overhead
    let isFilecoin := strIncludes network "filecoin"
    let effectiveMaxGasLimit := if isFilecoin then 150000000 else config.maxGasLimit
    if gasLimit > effectiveMaxGasLimit then .error () else .ok gasLimit

/-- `convertNativeToUsd` from `gas-cost.ts`.  The native amount is the value
of the decimal string argument; `nativePriceUsed` is the outcome of the
`getTokenPrice` oracle call (which never throws: it falls back to the
static price internally).  Throws when no (nonzero) static price is
configured for the network.  The result carries the `toFixed(6)`
rounding. -/
def convertNativeToUsd (nativeAmount : ℚ) (network : String) (config : GasCostConfig)
    (nativePriceUsed : ℚ) : Except Unit ℚ :=
  match config.nativeTokenPrice network with
  | none => .error ()
  | some staticPrice =>
    if staticPrice = 0 then .error ()
    else .ok (roundTo6 (nativeAmount * nativePriceUsed))

/-- `convertUsdToToken` from `gas-cost.ts`: `Math.ceil(usd / price * 10^d)`. -/
def convertUsdToToken (usdAmount : ℚ) (decimals : Nat) (tokenPriceUsd : ℚ) : ℤ :=
  ⌈usdAmount / tokenPriceUsd * (10 : ℚ) ^ decimals⌉

/-- The testnet predicate of `calculateMinFacilitatorFee`. -/
def isTestnetNetwork (network : String) : Bool :=
  strIncludes network "sepolia" || strIncludes network "testnet" ||
    strIncludes network "calibration"

/-- The per-environment USD fee floor applied by `calculateMinFacilitatorFee`:
`isTestnet ? 0.001 : config.minFacilitatorFeeUsd || 0.01`. -/
def feeFloorUsd (network : String) (config : GasCostConfig) : ℚ :=
  if isTestnetNetwork network then 1 / 1000 else jsOrQ (some config.minFacilitatorFeeUsd) (1 / 100)

/-- `FeeCalculationResult` from `gas-cost.ts` (decimal strings modelled by
their values). -/
structure FeeCalculationResult where
  minFacilitatorFee : ℤ
  minFacilitatorFeeUSD : ℚ
  gasLimit : Nat
  maxGasLimit : Nat
  gasPrice : Nat
  gasCostNative : ℚ
  gasCostUSD : ℚ
  safetyMultiplier : ℚ
  finalCostUSD : ℚ
  hookAllowed : Bool
  hookType : String
  deriving DecidableEq, Repr

/-- Environment of `calculateMinFacilitatorFee`: outcomes of its oracle
calls (gas price, `getTokenPrice`, `getPaymentTokenPrice`) and the
network registry. -/
structure FeeEnv where
  networkConfigs : String → Option NetworkConfig
  gasPriceResult : Except Unit Nat
  nativePriceUsed : ℚ
  paymentTokenPrice : ℚ

/-- `calculateMinFacilitatorFee` from `gas-cost.ts`.  `.error ()` models the
function throwing. -/
def calculateMinFacilitatorFee (network hook : String) (tokenDecimals : Nat)
    (config : GasCostConfig) (env : FeeEnv) : Except Unit FeeCalculationResult :=
  if ¬ isHookAllowed network hook config then .error ()
  else
    match getGasLimit network hook config env.networkConfigs with
    | .error _ => .error ()
    | .ok gasLimit =>
      let hookType := getHookType network hook env.networkConfigs
      match env.gasPriceResult with
      | .error _ => .error ()
      | .ok gasPrice =>
        let gasCostWei := gasLimit * gasPrice
        let gasCostNative : ℚ := (gasCostWei : ℚ) / 10 ^ 18
        match convertNativeToUsd gasCostNative network config env.nativePriceUsed with
        | .error _ => .error ()
        | .ok gasCostUSD =>
          let rawFinalCostUSD := roundTo6 (gasCostUSD * config.safetyMultiplier)
          let minFacilitatorFeeUsd := feeFloorUsd network config
          let finalCostUSD :=
            if rawFinalCostUSD < minFacilitatorFeeUsd then roundTo6 minFacilitatorFeeUsd
            else rawFinalCostUSD
          let minFacilitatorFee :=
            convertUsdToToken finalCostUSD tokenDecimals env.paymentTokenPrice
          .ok
            { minFacilitatorFee := minFacilitatorFee
              minFacilitatorFeeUSD := finalCostUSD
              gasLimit := gasLimit
              maxGasLimit := config.maxGasLimit
              gasPrice := gasPrice
              gasCostNative := gasCostNative
              gasCostUSD := gasCostUSD
              safetyMultiplier := config.safetyMultiplier
              finalCostUSD := finalCostUSD
              hookAllowed := true
              hookType := hookType }

/-- Whenever `calculateMinFacilitatorFee` returns, its USD fee is the
`finalCostUSD` branch result; the fee floor holds provided the floor is
representable at 6 decimals (`toFixed(6)` is the identity on it) — which
holds for the built-in floors `0.001` and `0.01`. -/
theorem calculateMinFacilitatorFee_floor (network hook : String) (tokenDecimals : Nat)
    (config : GasCostConfig) (env : FeeEnv) (r : FeeCalculationResult)
    (hok : calculateMinFacilitatorFee network hook tokenDecimals config env = .ok r)
    (hrepr : roundTo6 (feeFloorUsd network config) = feeFloorUsd network config) :
    feeFloorUsd network config ≤ r.minFacilitatorFeeUSD := by
  unfold calculateMinFacilitatorFee at hok
  split at hok
  · exact absurd hok (by simp)
  · split at hok
    · exact absurd hok (by simp)
    · split at hok
      · exact absurd hok (by simp)
      · dsimp only at hok
        split at hok
        · exact absurd hok (by simp)
        · rw [Except.ok.injEq] at hok
          subst hok
          simp only
          split
          · rw [hrepr]
          · exact le_of_not_lt (by assumption)

/-! ## Settlement engine (`settlement.ts`) -/

/-- The two kinds of errors thrown inside `settleWithRouter`'s `try` block:
`SettlementExtraError` (router / token / extra validation failures) and
every other `Error`. -/
inductive ThrownError where
  | extraError
  | other
  deriving DecidableEq, Repr

/-- Environment of one `settleWithRouter` invocation: the request data and
the outcomes of every effectful call (`.error ()` models the call
throwing). -/
structure SettleEnv where
  /-- `isEvmSignerWallet(signer)` -/
  isEvmSigner : Bool
  /-- `paymentRequirements.network` -/
  network : String
  /-- `paymentPayload.network` (echoed in every response) -/
  payloadNetwork : String
  /-- `paymentRequirements.asset` -/
  asset : String
  /-- `getNetworkConfig` (a `none` lookup models it throwing) -/
  networkConfigs : String → Option NetworkConfig
  /-- outcome of `parseSettlementExtra(paymentRequirements.extra)` -/
  extraParse : Except Unit SettlementExtra
  /-- the `allowedRouters` whitelist (a missing network is `[]`) -/
  allowedRouters : String → List String
  /-- `"authorization" in payload` -/
  hasAuthorization : Bool
  /-- `"signature" in payload && payload.signature` -/
  hasSignature : Bool
  authorization : Authorization
  /-- `evm.getChainFromNetwork(network).id` when the SDK knows the
  network; `none` falls back to the registry's `chainId` -/
  x402Chain : Option Nat
  /-- outcome of the x402 SDK `verify` call -/
  verifyOutcome : Except Unit VerifyResult
  /-- `calculateCommitment` (keccak over the packed parameters) -/
  commitFn : CommitmentParams → String
  gasCostConfig : Option GasCostConfig
  hasDynamicGasPriceConfig : Bool
  /-- outcome of `getGasPrice` -/
  gasPriceResult : Except Unit Nat
  /-- `nativeTokenPrices` -/
  nativeTokenPrices : String → Option ℚ
  /-- `balanceChecker` and, when present, the outcome of `checkBalance` -/
  balanceChecker : Option (Except Unit BalanceCheckResult)
  /-- the signer exposes `writeContract` / `waitForTransactionReceipt` -/
  hasWriteContract : Bool
  /-- outcome of `walletClient.writeContract` (the transaction hash) -/
  writeResult : Except Unit String
  /-- outcome of `waitForTransactionReceipt` -/
  receiptResult : Except Unit Receipt

/-- `validateTokenAddress` from `settlement.ts` (also returns the network
config it looked up).  An unknown network makes `getNetworkConfig` throw a
plain error; a non-default asset raises `SettlementExtraError`. -/
def validateTokenAddress (network tokenAddress : String)
    (configs : String → Option NetworkConfig) : Except ThrownError NetworkConfig :=
  match configs network with
  | none => .error .other
  | some networkConfig =>
    if strToLower tokenAddress ≠ strToLower networkConfig.defaultAsset.address then .error .extraError
    else .ok networkConfig

/-- `validateSettlementRouter` from `settlement.ts`. -/
def validateSettlementRouter (network routerAddress : String)
    (allowedRouters : String → List String) : Except ThrownError Unit :=
  let allowedForNetwork := allowedRouters network
  if allowedForNetwork.isEmpty then .error .extraError
  else if ¬ allowedForNetwork.any (fun allowed => strToLower allowed == strToLower routerAddress) then
    .error .extraError
  else .ok ()

/-- The error-reason mapping `settleWithRouter` applies to a failed
verification (sequential `includes` tests, else the
`PAYMENT_VERIFICATION_FAILED:` prefix). -/
def mapVerificationFailure (invalidReason : String) : String :=
  if strIncludes invalidReason "authorization_valid_before" then "AUTHORIZATION_EXPIRED"
  else if strIncludes invalidReason "authorization_valid_after" then "AUTHORIZATION_NOT_YET_VALID"
  else if strIncludes invalidReason "signature" then "INVALID_SIGNATURE"
  else if strIncludes invalidReason "recipient" then "INVALID_RECIPIENT"
  else if strIncludes invalidReason "insufficient_funds" then "INSUFFICIENT_FUNDS"
  else "PAYMENT_VERIFICATION_FAILED: " ++ invalidReason

/-- The early response `settleWithRouter` returns when SDK verification
fails with a non-tolerated reason. -/
def verificationFailureResponse (env : SettleEnv) (v : VerifyResult) : SettleResponse :=
  { success := false
    errorReason := some (mapVerificationFailure (jsOrStr v.invalidReason ""))
    transaction := ""
    network := env.payloadNetwork
    payer := jsOrStr v.payer env.authorization.fromAddr }

/-- Early exits of the pre-commitment phase: a thrown error or an early
`return` with a response. -/
abbrev EarlyExit := ThrownError ⊕ SettleResponse

/-- Steps 1–5.5 of `settleWithRouter`: signer check, token validation,
extra parsing, router whitelist, payload checks and SDK verification
(with the `invalid_scheme` tolerance).  Succeeds with the parsed extra and
the network config when control reaches the commitment check. -/
def settlePreCommit (env : SettleEnv) : Except EarlyExit (SettlementExtra × NetworkConfig) :=
  if ¬ env.isEvmSigner then .error (.inl .other)
  else
    match validateTokenAddress env.network env.asset env.networkConfigs with
    | .error e => .error (.inl e)
    | .ok networkConfig =>
      match env.extraParse with
      | .error _ => .error (.inl .extraError)
      | .ok extra =>
        match validateSettlementRouter env.network extra.settlementRouter env.allowedRouters with
        | .error e => .error (.inl e)
        | .ok _ =>
          if ¬ env.hasAuthorization then .error (.inl .other)
          else if ¬ env.hasSignature then .error (.inl .other)
          else
            match env.verifyOutcome with
            | .error _ => .error (.inl .other)
            | .ok verifyResult =>
              if ¬ verifyResult.isValid then
                if jsOrStr verifyResult.invalidReason "" = "invalid_scheme" then
                  .ok (extra, networkConfig)
                else .error (.inr (verificationFailureResponse env verifyResult))
              else .ok (extra, networkConfig)

/-- The `calculateCommitment` arguments exactly as the engine assembles
them (step 5.6 of `settleWithRouter`). -/
def commitParamsOf (env : SettleEnv) (extra : SettlementExtra) (cfg : NetworkConfig) :
    CommitmentParams :=
  { chainId := env.x402Chain.getD cfg.chainId
    hub := extra.settlementRouter
    asset := env.asset
    fromAddr := env.authorization.fromAddr
    value := env.authorization.value
    validAfter := env.authorization.validAfter
    validBefore := env.authorization.validBefore
    salt := extra.salt
    payTo := extra.payTo
    facilitatorFee := extra.facilitatorFee
    hook := extra.hook
    hookData := extra.hookData }

/-- The hook-specific gas overhead lookup
`hookGasOverhead[hookType] || hookGasOverhead.custom || 100000`. -/
def hookOverheadOf (gcc : GasCostConfig) (hookType : String) : Nat :=
  jsOrNat (gcc.hookGasOverhead hookType) (jsOrNat (gcc.hookGasOverhead "custom") 100000)

/-- Step 6 of `settleWithRouter`: the effective gas limit attached to the
transaction (`none` = fall back to RPC estimation).  The inner
`try`/`catch` around the dynamic computation swallows `getGasPrice`
failures. -/
def effectiveGasLimitOf (env : SettleEnv) (extra : SettlementExtra) (cfg : NetworkConfig) :
    Option ℤ :=
  let isFilecoin := strIncludes env.network "filecoin"
  match env.gasCostConfig with
  | none => if isFilecoin then some 150000000 else none
  | some gcc =>
    if env.hasDynamicGasPriceConfig then
      match env.gasPriceResult with
      | .error _ => none
      | .ok gasPrice =>
        let nativePrice := jsOrQ (env.nativeTokenPrices env.network) 0
        let tokenDecimals := cfg.defaultAsset.decimals
        let calculatedLimit :=
          calculateEffectiveGasLimit env.network extra.facilitatorFee gasPrice nativePrice gcc
            tokenDecimals
        let hookType := getHookType env.network extra.hook env.networkConfigs
        some (calculatedLimit + hookOverheadOf gcc hookType)
    else none

/-- Settlement outcome before the outer `catch`: the produced response or a
thrown error, together with whether `writeContract` produced a hash
(i.e. whether an on-chain transaction was submitted). -/
inductive SettleOutcome where
  | response (r : SettleResponse) (submitted : Bool)
  | thrown (e : ThrownError) (submitted : Bool)
  deriving DecidableEq, Repr

/-- Step 8 onwards of `settleWithRouter`: submission, receipt and the final
response. -/
def settleSubmit (env : SettleEnv) : SettleOutcome :=
  if ¬ env.hasWriteContract then .thrown .other false
  else
    match env.writeResult with
    | .error _ => .thrown .other false
    | .ok tx =>
      match env.receiptResult with
      | .error _ => .thrown .other true
      | .ok receipt =>
        if receipt.status ≠ "success" then
          .response
            { success := false
              errorReason := some "invalid_transaction_state"
              transaction := tx
              network := env.payloadNetwork
              payer := env.authorization.fromAddr } true
        else
          .response
            { success := true
              errorReason := none
              transaction := tx
              network := env.payloadNetwork
              payer := env.authorization.fromAddr } true

/-- The `try` block of `settleWithRouter`: pre-commitment phase, the
commitment check, the defensive balance check, then submission.  (The gas
limit of step 6, `effectiveGasLimitOf`, is attached to the transaction but
does not alter control flow.) -/
def settleRun (env : SettleEnv) : SettleOutcome :=
  match settlePreCommit env with
  | .error (.inl e) => .thrown e false
  | .error (.inr r) => .response r false
  | .ok (extra, networkConfig) =>
    let expectedCommitment := env.commitFn (commitParamsOf env extra networkConfig)
    if strToLower env.authorization.nonce ≠ strToLower expectedCommitment then
      .response
        { success := false
          errorReason := some "INVALID_COMMITMENT"
          transaction := ""
          network := env.payloadNetwork
          payer := env.authorization.fromAddr } false
    else
      match env.balanceChecker with
      | some (.ok balanceCheck) =>
        if ¬ balanceCheck.hasSufficient then
          .response
            { success := false
              errorReason := some "INSUFFICIENT_FUNDS"
              transaction := ""
              network := env.payloadNetwork
              payer := env.authorization.fromAddr } false
        else settleSubmit env
      | some (.error _) => settleSubmit env
      | none => settleSubmit env

/-- The payer extraction of the outer `catch` block. -/
def extractPayer (env : SettleEnv) : String :=
  if env.hasAuthorization then env.authorization.fromAddr else ""

/-- The response of the outer `catch` block: `invalid_payment_requirements`
for a `SettlementExtraError`, else `unexpected_settle_error`. -/
def catchResponse (env : SettleEnv) (e : ThrownError) : SettleResponse :=
  { success := false
    errorReason :=
      some
        (match e with
          | .extraError => "invalid_payment_requirements"
          | .other => "unexpected_settle_error")
    transaction := ""
    network := env.payloadNetwork
    payer := extractPayer env }

/-- `settleWithRouter`: the `try` block with the outer `catch` applied. -/
def settleWithRouter (env : SettleEnv) : SettleResponse :=
  match settleRun env with
  | .response r _ => r
  | .thrown e _ => catchResponse env e

/-- Whether the invocation submitted an on-chain transaction
(`writeContract` was reached and returned a hash). -/
def submittedTx (env : SettleEnv) : Bool :=
  match settleRun env with
  | .response _ s => s
  | .thrown _ s => s

/-! ## Verify route (`routes/verify.ts`, `POST /verify` handler) -/

/-- Environment of one `POST /verify` invocation. -/
structure VerifyEnv where
  /-- `paymentRequirements.network` and `.asset` are present -/
  reqFieldsPresent : Bool
  /-- `paymentPayload.scheme` and `.payload` are present -/
  payloadFieldsPresent : Bool
  network : String
  /-- `getSupportedNetworks()` -/
  supportedNetworks : List String
  /-- outcome of the x402 SDK `verify` call -/
  verifyOutcome : Except Unit VerifyResult
  /-- `paymentPayload.payload.authorization.from`, when the payload
  carries an authorization -/
  payloadAuthFrom : Option String
  /-- `balanceChecker` and, when present, the outcome of `checkBalance` -/
  balanceChecker : Option (Except Unit BalanceCheckResult)

/-- Result of the `POST /verify` handler. -/
inductive VerifyRouteResult where
  /-- 200 with the (possibly adjusted) verification result -/
  | json (v : VerifyResult)
  /-- a 400 response (missing fields / unsupported network) -/
  | badRequest
  /-- the `catch` branch (error during verification) -/
  | caught
  deriving DecidableEq, Repr

/-- The `invalid_scheme` toleration step of the verify route: mark valid,
clear the reason, and populate `payer` from the payload's
`authorization.from` when it is missing. -/
def tolerateInvalidScheme (env : VerifyEnv) (valid : VerifyResult) : VerifyResult :=
  if ¬ valid.isValid ∧ valid.invalidReason = some "invalid_scheme" then
    { isValid := true
      invalidReason := none
      payer :=
        if jsOrStr valid.payer "" = "" ∧ env.payloadAuthFrom.isSome then env.payloadAuthFrom
        else valid.payer }
  else valid

/-- The balance-check step of the verify route: only runs on a valid
result; an insufficient balance overrides the result; a throwing check is
swallowed and the prior outcome kept. -/
def applyBalanceCheck (env : VerifyEnv) (valid : VerifyResult) : VerifyResult :=
  if valid.isValid then
    match env.balanceChecker with
    | some (.ok balanceCheck) =>
      if ¬ balanceCheck.hasSufficient then
        { valid with isValid := false, invalidReason := some "insufficient_funds" }
      else valid
    | some (.error _) => valid
    | none => valid
  else valid

/-- The `POST /verify` handler body. -/
def postVerify (env : VerifyEnv) : VerifyRouteResult :=
  if ¬ env.reqFieldsPresent then .badRequest
  else if ¬ env.payloadFieldsPresent then .badRequest
  else if ¬ env.supportedNetworks.contains env.network then .badRequest
  else
    match env.verifyOutcome with
    | .error _ => .caught
    | .ok valid => .json (applyBalanceCheck env (tolerateInvalidScheme env valid))

/-! ## The on-chain hub (`SettlementHub.sol`) -/

namespace SettlementHub

/-- The arguments of `SettlementHub.settleAndExecute`. -/
structure HubArgs where
  token : String
  fromAddr : String
  value : Nat
  validAfter : Nat
  validBefore : Nat
  nonce : String
  signature : String
  hook : String
  hookData : String
  deriving DecidableEq, Repr

/-- Contract storage: the set of settled context keys. -/
structure HubState where
  settled : List String
  deriving DecidableEq, Repr

/-- Outcomes of the external calls `settleAndExecute` makes (the ERC-3009
transfer, the balance reads, the hook). -/
structure HubEnv where
  /-- `transferWithAuthorization` succeeds (valid signature and nonce) -/
  transferAuthSucceeds : Bool
  /-- hub token balance after the transfer -/
  balanceAfterTransfer : Nat
  /-- the hook's `execute` call succeeds -/
  hookSucceeds : Bool
  /-- hub token balance after the hook ran -/
  balanceAfterHook : Nat
  deriving DecidableEq, Repr

/-- Revert reasons of `settleAndExecute`. -/
inductive HubRevert where
  | alreadySettled
  | transferAuthReverted
  | transferFailed
  | hookExecutionFailed
  | hubShouldNotHoldFunds
  deriving DecidableEq, Repr

/-- Result of one `settleAndExecute` call.  A revert rolls the state back
(`state` is the pre-state) and `transferAttempted` records whether the
ERC-3009 transfer call was reached. -/
structure HubResult where
  revert : Option HubRevert
  state : HubState
  transferAttempted : Bool
  deriving DecidableEq, Repr

/-- `calculateContextKey`: `keccak256(abi.encodePacked(from, token, nonce))`,
with the hash abstracted. -/
def calculateContextKey (hashCK : String → String → String → String)
    (fromAddr token nonce : String) : String :=
  hashCK fromAddr token nonce

/-- `SettlementHub.settleAndExecute`: context key, idempotency check (before
any transfer), CEI settled marker, ERC-3009 transfer, balance check, hook
execution, final zero-balance check. -/
def settleAndExecute (hashCK : String → String → String → String) (st : HubState)
    (a : HubArgs) (env : HubEnv) : HubResult :=
  let contextKey := calculateContextKey hashCK a.fromAddr a.token a.nonce
  if st.settled.contains contextKey then
    { revert := some .alreadySettled, state := st, transferAttempted := false }
  else if ¬ env.transferAuthSucceeds then
    { revert := some .transferAuthReverted, state := st, transferAttempted := true }
  else if env.balanceAfterTransfer < a.value then
    { revert := some .transferFailed, state := st, transferAttempted := true }
  else if a.hook ≠ "0x0000000000000000000000000000000000000000" then
    if ¬ env.hookSucceeds then
      { revert := some .hookExecutionFailed, state := st, transferAttempted := true }
    else if env.balanceAfterHook ≠ 0 then
      { revert := some .hubShouldNotHoldFunds, state := st, transferAttempted := true }
    else { revert := none, state := { settled := contextKey :: st.settled }, transferAttempted := true }
  else if env.balanceAfterTransfer ≠ 0 then
    { revert := some .hubShouldNotHoldFunds, state := st, transferAttempted := true }
  else { revert := none, state := { settled := contextKey :: st.settled }, transferAttempted := true }

/-- `isSettled`. -/
def isSettled (st : HubState) (contextKey : String) : Bool :=
  st.settled.contains contextKey

end SettlementHub

/-! ## Concrete sample data (used by witnesses and counterexamples) -/

def sampleAsset : NetworkAsset := { address := "0xusdc", decimals := 6 }

def sampleNetworkConfig : NetworkConfig :=
  { name := "Base Sepolia", chainId := 84532, defaultAsset := sampleAsset,
    hooksTransfer := "0xhook" }

def sampleExtra : SettlementExtra :=
  { settlementRouter := "0xrouter", salt := "0xsalt", payTo := "0xmerchant",
    facilitatorFee := 10000, hook := "0xhook", hookData := "0x" }

def sampleAuthorization : Authorization :=
  { fromAddr := "0xpayer", toAddr := "0xrouter", value := 1000000, validAfter := 0,
    validBefore := 1893456000, nonce := "0xcommit" }

def sampleGasCostConfig : GasCostConfig :=
  { minGasLimit := 150000
    maxGasLimit := 5000000
    dynamicGasLimitMargin := 1 / 5
    networkMinGasLimit := fun _ => none
    hookGasOverhead := fun h =>
      if h = "transfer" then some 50000 else if h = "custom" then some 100000 else none
    safetyMultiplier := 3 / 2
    validationTolerance := 1 / 10
    minFacilitatorFeeUsd := 1 / 100
    hookWhitelistEnabled := false
    allowedHooks := fun _ => []
    networkGasPrice := fun _ => none
    nativeTokenPrice := fun n => if n = "base-sepolia" then some 3000 else none }

/-- A settlement environment for a request that settles successfully. -/
def baseSettleEnv : SettleEnv :=
  { isEvmSigner := true
    network := "base-sepolia"
    payloadNetwork := "base-sepolia"
    asset := "0xusdc"
    networkConfigs := fun n => if n = "base-sepolia" then some sampleNetworkConfig else none
    extraParse := .ok sampleExtra
    allowedRouters := fun n => if n = "base-sepolia" then ["0xrouter"] else []
    hasAuthorization := true
    hasSignature := true
    authorization := sampleAuthorization
    x402Chain := some 84532
    verifyOutcome := .ok { isValid := true, invalidReason := none, payer := some "0xpayer" }
    commitFn := fun _ => "0xcommit"
    gasCostConfig := none
    hasDynamicGasPriceConfig := false
    gasPriceResult := .error ()
    nativeTokenPrices := fun _ => none
    balanceChecker := none
    hasWriteContract := true
    writeResult := .ok "0xtxhash"
    receiptResult := .ok { status := "success", gasUsed := 100000, effectiveGasPrice := 10 } }

/-- A verify-route environment for a request whose SDK verification
succeeds. -/
def baseVerifyEnv : VerifyEnv :=
  { reqFieldsPresent := true
    payloadFieldsPresent := true
    network := "base-sepolia"
    supportedNetworks := ["base-sepolia", "sepolia", "filecoin-calibration"]
    verifyOutcome := .ok { isValid := true, invalidReason := none, payer := some "0xpayer" }
    payloadAuthFrom := some "0xpayer"
    balanceChecker := none }

/-! ## Error-reason inventory of `settleWithRouter` -/

/-- The fixed error reasons `settleWithRouter` can place in `errorReason`
(besides the `PAYMENT_VERIFICATION_FAILED:`-prefixed pass-through). -/
def settleErrorReasons : List String :=
  ["AUTHORIZATION_EXPIRED", "AUTHORIZATION_NOT_YET_VALID", "INVALID_SIGNATURE",
    "INVALID_RECIPIENT", "INSUFFICIENT_FUNDS", "INVALID_COMMITMENT",
    "invalid_transaction_state", "invalid_payment_requirements", "unexpected_settle_error"]

theorem mapVerificationFailure_cases (r : String) :
    mapVerificationFailure r ∈ settleErrorReasons ∨
      mapVerificationFailure r = "PAYMENT_VERIFICATION_FAILED: " ++ r := by
  unfold mapVerificationFailure
  split
  · exact Or.inl (by decide)
  split
  · exact Or.inl (by decide)
  split
  · exact Or.inl (by decide)
  split
  · exact Or.inl (by decide)
  split
  · exact Or.inl (by decide)
  exact Or.inr rfl

theorem settlePreCommit_inr (env : SettleEnv) (resp : SettleResponse)
    (h : settlePreCommit env = .error (.inr resp)) :
    ∃ v, env.verifyOutcome = .ok v ∧ resp = verificationFailureResponse env v := by
  unfold settlePreCommit at h
  split at h
  · exact absurd h (by simp)
  split at h
  · exact absurd h (by simp)
  split at h
  · exact absurd h (by simp)
  split at h
  · exact absurd h (by simp)
  split at h
  · exact absurd h (by simp)
  split at h
  · exact absurd h (by simp)
  split at h
  · exact absurd h (by simp)
  next verifyResult heq =>
    split at h
    · split at h
      · exact absurd h (by simp)
      · rw [Except.error.injEq, Sum.inr.injEq] at h
        exact ⟨verifyResult, heq, h.symm⟩
    · exact absurd h (by simp)

theorem settleSubmit_response_shape (env : SettleEnv) (r : SettleResponse) (sub : Bool)
    (h : settleSubmit env = .response r sub) :
    r.errorReason = some "invalid_transaction_state" ∨ r.errorReason = none := by
  unfold settleSubmit at h
  split at h
  · exact absurd h (by simp)
  split at h
  · exact absurd h (by simp)
  split at h
  · exact absurd h (by simp)
  split at h
  · rw [SettleOutcome.response.injEq] at h
    exact Or.inl (by rw [← h.1])
  · rw [SettleOutcome.response.injEq] at h
    exact Or.inr (by rw [← h.1])

theorem settleRun_response_shape (env : SettleEnv) (r : SettleResponse) (sub : Bool)
    (h : settleRun env = .response r sub) :
    (∃ v, r = verificationFailureResponse env v) ∨
      r.errorReason = some "INVALID_COMMITMENT" ∨
      r.errorReason = some "INSUFFICIENT_FUNDS" ∨
      r.errorReason = some "invalid_transaction_state" ∨ r.errorReason = none := by
  unfold settleRun at h
  split at h
  · exact absurd h (by simp)
  · next resp hpre =>
    rw [SettleOutcome.response.injEq] at h
    obtain ⟨v, -, hv⟩ := settlePreCommit_inr env resp hpre
    exact Or.inl ⟨v, by rw [← h.1, hv]⟩
  · split at h
    · dsimp only at h
      split at h
      · rw [SettleOutcome.response.injEq] at h
        exact Or.inr (Or.inl (by rw [← h.1]))
      · split at h
        · rw [SettleOutcome.response.injEq] at h
          exact Or.inr (Or.inr (Or.inl (by rw [← h.1])))
        · exact Or.inr (Or.inr (Or.inr (settleSubmit_response_shape env r sub h)))
    · dsimp only at h
      split at h
      · rw [SettleOutcome.response.injEq] at h
        exact Or.inr (Or.inl (by rw [← h.1]))
      · exact Or.inr (Or.inr (Or.inr (settleSubmit_response_shape env r sub h)))
    · dsimp only at h
      split at h
      · rw [SettleOutcome.response.injEq] at h
        exact Or.inr (Or.inl (by rw [← h.1]))
      · exact Or.inr (Or.inr (Or.inr (settleSubmit_response_shape env r sub h)))

/-- Every `errorReason` value `settleWithRouter` can surface is either one
of the fixed reasons or a `PAYMENT_VERIFICATION_FAILED:`-prefixed
pass-through of the SDK reason. -/
theorem settleWithRouter_errorReason_cases (env : SettleEnv) (s : String)
    (h : (settleWithRouter env).errorReason = some s) :
    s ∈ settleErrorReasons ∨ ∃ r, s = "PAYMENT_VERIFICATION_FAILED: " ++ r := by
  unfold settleWithRouter at h
  split at h
  · next r sub hrun =>
    rcases settleRun_response_shape env r sub hrun with ⟨v, hv⟩ | hr | hr | hr | hr
    · rw [hv] at h
      unfold verificationFailureResponse at h
      simp only [Option.some.injEq] at h
      rcases mapVerificationFailure_cases (jsOrStr v.invalidReason "") with hm | hm
      · exact Or.inl (h ▸ hm)
      · exact Or.inr ⟨jsOrStr v.invalidReason "", h ▸ hm⟩
    · rw [hr, Option.some.injEq] at h
      exact Or.inl (h ▸ (by decide))
    · rw [hr, Option.some.injEq] at h
      exact Or.inl (h ▸ (by decide))
    · rw [hr, Option.some.injEq] at h
      exact Or.inl (h ▸ (by decide))
    · rw [hr] at h
      exact absurd h (by simp)
  · next e sub hrun =>
    unfold catchResponse at h
    simp only [Option.some.injEq] at h
    cases e
    · exact Or.inl (h ▸ (by decide))
    · exact Or.inl (h ▸ (by decide))

/-! ## Submission tracking lemmas -/

theorem settleSubmit_response_submitted (env : SettleEnv) (r : SettleResponse) (s : Bool)
    (h : settleSubmit env = .response r s) :
    s = true ∧ ∃ tx receipt, env.writeResult = .ok tx ∧ env.receiptResult = .ok receipt ∧
      r.transaction = tx := by
  unfold settleSubmit at h
  split at h
  · exact absurd h (by simp)
  split at h
  · exact absurd h (by simp)
  next tx hw =>
    split at h
    · exact absurd h (by simp)
    next receipt hr =>
      split at h
      · rw [SettleOutcome.response.injEq] at h
        exact ⟨h.2.symm, tx, receipt, hw, hr, by rw [← h.1]⟩
      · rw [SettleOutcome.response.injEq] at h
        exact ⟨h.2.symm, tx, receipt, hw, hr, by rw [← h.1]⟩

theorem settleSubmit_thrown_true (env : SettleEnv) (e : ThrownError)
    (h : settleSubmit env = .thrown e true) :
    e = .other ∧ env.receiptResult = .error () ∧
      (∃ tx, env.writeResult = .ok tx) ∧ env.hasWriteContract = true := by
  unfold settleSubmit at h
  split at h
  · exact absurd h (by simp)
  next hwc =>
    split at h
    · exact absurd h (by simp)
    next tx hw =>
      split at h
      · next hr =>
        rw [SettleOutcome.thrown.injEq] at h
        refine ⟨h.1.symm, ?_, ⟨tx, hw⟩, by simpa using hwc⟩
        cases henv : env.receiptResult with
        | error u => cases u; rfl
        | ok receipt => rw [henv] at hr; exact absurd hr (by simp)
      · split at h
        · exact absurd h (by simp)
        · exact absurd h (by simp)

theorem settleRun_response_submitted (env : SettleEnv) (r : SettleResponse)
    (h : settleRun env = .response r true) :
    ∃ tx receipt, env.writeResult = .ok tx ∧ env.receiptResult = .ok receipt ∧
      r.transaction = tx := by
  unfold settleRun at h
  split at h
  · exact absurd h (by simp)
  · exact absurd h (by simp)
  · split at h
    · dsimp only at h
      split at h
      · exact absurd h (by simp)
      · split at h
        · exact absurd h (by simp)
        · exact (settleSubmit_response_submitted env r true h).2
    · dsimp only at h
      split at h
      · exact absurd h (by simp)
      · exact (settleSubmit_response_submitted env r true h).2
    · dsimp only at h
      split at h
      · exact absurd h (by simp)
      · exact (settleSubmit_response_submitted env r true h).2

theorem settleRun_thrown_true (env : SettleEnv) (e : ThrownError)
    (h : settleRun env = .thrown e true) :
    e = .other ∧ env.receiptResult = .error () := by
  unfold settleRun at h
  split at h
  · exact absurd h (by simp)
  · exact absurd h (by simp)
  · split at h
    · dsimp only at h
      split at h
      · exact absurd h (by simp)
      · split at h
        · exact absurd h (by simp)
        · exact ⟨(settleSubmit_thrown_true env e h).1, (settleSubmit_thrown_true env e h).2.1⟩
    · dsimp only at h
      split at h
      · exact absurd h (by simp)
      · exact ⟨(settleSubmit_thrown_true env e h).1, (settleSubmit_thrown_true env e h).2.1⟩
    · dsimp only at h
      split at h
      · exact absurd h (by simp)
      · exact ⟨(settleSubmit_thrown_true env e h).1, (settleSubmit_thrown_true env e h).2.1⟩

theorem settleRun_response_false_transaction (env : SettleEnv) (r : SettleResponse)
    (h : settleRun env = .response r false) : r.transaction = "" := by
  unfold settleRun at h
  split at h
  · exact absurd h (by simp)
  · next resp hpre =>
    rw [SettleOutcome.response.injEq] at h
    obtain ⟨v, -, hv⟩ := settlePreCommit_inr env resp hpre
    rw [← h.1, hv]
    rfl
  · split at h
    · dsimp only at h
      split at h
      · rw [SettleOutcome.response.injEq] at h
        rw [← h.1]
      · split at h
        · rw [SettleOutcome.response.injEq] at h
          rw [← h.1]
        · exact absurd (settleSubmit_response_submitted env r false h).1 (by simp)
    · dsimp only at h
      split at h
      · rw [SettleOutcome.response.injEq] at h
        rw [← h.1]
      · exact absurd (settleSubmit_response_submitted env r false h).1 (by simp)
    · dsimp only at h
      split at h
      · rw [SettleOutcome.response.injEq] at h
        rw [← h.1]
      · exact absurd (settleSubmit_response_submitted env r false h).1 (by simp)

/-! ## Claim theorems -/

/-- Claim C1: for every settlement request reaching the commitment check,
the engine recomputes the commitment hash from `(chainId, router, asset,
authorization fields, salt, payTo, facilitatorFee, hook, hookData)`
(assembled by `commitParamsOf`) and compares it case-insensitively to
`authorization.nonce`; whenever they differ, settle returns
`success = false` with `errorReason` `INVALID_COMMITMENT` and an empty
transaction field, and no on-chain transaction is submitted. -/
theorem commitment_mismatch_refused (env : SettleEnv) (extra : SettlementExtra)
    (cfg : NetworkConfig)
    (hpre : settlePreCommit env = .ok (extra, cfg))
    (hmismatch :
      strToLower env.authorization.nonce ≠ strToLower (env.commitFn (commitParamsOf env extra cfg))) :
    settleWithRouter env =
      { success := false, errorReason := some "INVALID_COMMITMENT", transaction := "",
        network := env.payloadNetwork, payer := env.authorization.fromAddr } ∧
    submittedTx env = false := by
  have hrun : settleRun env =
      .response
        { success := false, errorReason := some "INVALID_COMMITMENT", transaction := "",
          network := env.payloadNetwork, payer := env.authorization.fromAddr } false := by
    unfold settleRun
    rw [hpre]
    dsimp only
    rw [if_pos hmismatch]
  exact ⟨by unfold settleWithRouter; rw [hrun], by unfold submittedTx; rw [hrun]⟩

/-- A settlement environment whose `calculateCommitment` output disagrees
with the authorization nonce. -/
def mismatchEnv : SettleEnv := { baseSettleEnv with commitFn := fun _ => "0xother" }

/-- Witness for `commitment_mismatch_refused` at a concrete environment. -/
theorem commitment_mismatch_refused_witness :
    settleWithRouter mismatchEnv =
      { success := false, errorReason := some "INVALID_COMMITMENT", transaction := "",
        network := "base-sepolia", payer := "0xpayer" } ∧
    submittedTx mismatchEnv = false :=
  commitment_mismatch_refused mismatchEnv sampleExtra sampleNetworkConfig (by decide) (by decide)

/-- The error reasons claim C8 asserts are the only ones surfaced. -/
def claimedErrorReasons : List String :=
  ["invalid_signature", "authorization_expired", "authorization_not_yet_valid",
    "invalid_recipient", "insufficient_funds", "invalid_scheme", "invalid_commitment",
    "already_settled", "settlement_router_not_configured", "invalid_transaction_state",
    "unexpected_settle_error"]

/-- A settlement environment whose SDK verification fails with the reason
`authorization_valid_before`. -/
def expiredEnv : SettleEnv :=
  { baseSettleEnv with
    verifyOutcome :=
      .ok { isValid := false, invalidReason := some "authorization_valid_before",
            payer := some "0xpayer" } }

/-- Claim C8 counterexample: an expired authorization is surfaced as
`AUTHORIZATION_EXPIRED`, which is not drawn from the claimed set of
lowercase reasons. -/
theorem error_reason_set_counterexample :
    (settleWithRouter expiredEnv).errorReason = some "AUTHORIZATION_EXPIRED" ∧
    "AUTHORIZATION_EXPIRED" ∉ claimedErrorReasons := by decide

/-- Claim C8 (amended): every `errorReason` surfaced by `settleWithRouter`
is drawn from `{AUTHORIZATION_EXPIRED, AUTHORIZATION_NOT_YET_VALID,
INVALID_SIGNATURE, INVALID_RECIPIENT, INSUFFICIENT_FUNDS,
INVALID_COMMITMENT, invalid_transaction_state,
invalid_payment_requirements, unexpected_settle_error}` or is the SDK
reason prefixed by `PAYMENT_VERIFICATION_FAILED: `. -/
theorem error_reason_set (env : SettleEnv) (s : String)
    (h : (settleWithRouter env).errorReason = some s) :
    s ∈ settleErrorReasons ∨ ∃ r, s = "PAYMENT_VERIFICATION_FAILED: " ++ r :=
  settleWithRouter_errorReason_cases env s h

/-- Witness for `error_reason_set` at a concrete environment. -/
theorem error_reason_set_witness :
    "AUTHORIZATION_EXPIRED" ∈ settleErrorReasons ∨
      ∃ r, "AUTHORIZATION_EXPIRED" = "PAYMENT_VERIFICATION_FAILED: " ++ r :=
  error_reason_set expiredEnv "AUTHORIZATION_EXPIRED" (by decide)

/-- A settlement environment in which `writeContract` returns a hash but
`waitForTransactionReceipt` throws. -/
def lostHashEnv : SettleEnv := { baseSettleEnv with receiptResult := .error () }

/-- Claim C9 counterexample: when `waitForTransactionReceipt` throws after
submission, the transaction was submitted but the response's transaction
field is empty (the hash is lost in the catch-all). -/
theorem tx_hash_surfaced_counterexample :
    submittedTx lostHashEnv = true ∧
    (settleWithRouter lostHashEnv).transaction = "" ∧
    (settleWithRouter lostHashEnv).errorReason = some "unexpected_settle_error" := by decide

/-- Claim C9 (amended): for every settlement attempt, either no on-chain
transaction was submitted and the response's transaction field is empty,
or the submission hash is present in the response regardless of the
receipt's status — provided awaiting the receipt does not throw; when the
receipt await throws after submission, the engine reports
`unexpected_settle_error` with an empty transaction field. -/
theorem tx_hash_surfaced (env : SettleEnv) :
    (submittedTx env = false → (settleWithRouter env).transaction = "") ∧
    (∀ tx receipt, env.writeResult = .ok tx → env.receiptResult = .ok receipt →
      submittedTx env = true → (settleWithRouter env).transaction = tx) ∧
    (submittedTx env = true → env.receiptResult = .error () →
      settleWithRouter env = catchResponse env .other) := by
  refine ⟨?_, ?_, ?_⟩
  · intro hsub
    unfold settleWithRouter
    cases hrun : settleRun env with
    | response r s =>
      have hs : s = false := by
        unfold submittedTx at hsub
        rw [hrun] at hsub
        exact hsub
      subst hs
      exact settleRun_response_false_transaction env r hrun
    | thrown e s => rfl
  · intro tx receipt hw hr hsub
    unfold settleWithRouter
    cases hrun : settleRun env with
    | response r s =>
      have hs : s = true := by
        unfold submittedTx at hsub
        rw [hrun] at hsub
        exact hsub
      subst hs
      obtain ⟨tx', receipt', hw', -, htr⟩ := settleRun_response_submitted env r hrun
      rw [hw] at hw'
      rw [htr, ← Except.ok.inj hw']
    | thrown e s =>
      have hs : s = true := by
        unfold submittedTx at hsub
        rw [hrun] at hsub
        exact hsub
      subst hs
      have hcontra := (settleRun_thrown_true env e hrun).2
      rw [hr] at hcontra
      exact absurd hcontra (by simp)
  · intro hsub hr
    unfold settleWithRouter
    cases hrun : settleRun env with
    | response r s =>
      have hs : s = true := by
        unfold submittedTx at hsub
        rw [hrun] at hsub
        exact hsub
      subst hs
      obtain ⟨tx', receipt', -, hr', -⟩ := settleRun_response_submitted env r hrun
      rw [hr] at hr'
      exact absurd hr' (by simp)
    | thrown e s =>
      have hs : s = true := by
        unfold submittedTx at hsub
        rw [hrun] at hsub
        exact hsub
      subst hs
      rw [(settleRun_thrown_true env e hrun).1]

/-- Witness for `tx_hash_surfaced` at a concrete environment. -/
theorem tx_hash_surfaced_witness :
    (settleWithRouter baseSettleEnv).transaction = "0xtxhash" :=
  (tx_hash_surfaced baseSettleEnv).2.1 "0xtxhash"
    { status := "success", gasUsed := 100000, effectiveGasPrice := 10 }
    (by decide) (by decide) (by decide)

/-- A settlement environment in which `settleRun` throws a
`SettlementExtraError` (the `extra` field fails to parse). -/
def extraErrorEnv : SettleEnv := { baseSettleEnv with extraParse := .error () }

/-- Claim C10: `settleWithRouter` is total at its interface (it is a Lean
function into `SettleResponse`); every thrown internal error is caught and
mapped to `success = false` with an empty transaction field, with
`errorReason` `invalid_payment_requirements` exactly when the error is a
`SettlementExtraError` and `unexpected_settle_error` for every other
thrown error. -/
theorem settle_total_error_mapping (env : SettleEnv) (e : ThrownError) (s : Bool)
    (h : settleRun env = .thrown e s) :
    settleWithRouter env = catchResponse env e ∧
    (settleWithRouter env).success = false ∧
    (settleWithRouter env).transaction = "" ∧
    ((settleWithRouter env).errorReason = some "invalid_payment_requirements" ↔
      e = ThrownError.extraError) ∧
    ((settleWithRouter env).errorReason = some "unexpected_settle_error" ↔
      e = ThrownError.other) := by
  have hsw : settleWithRouter env = catchResponse env e := by
    unfold settleWithRouter
    rw [h]
  refine ⟨hsw, by rw [hsw]; rfl, by rw [hsw]; rfl, ?_, ?_⟩ <;> rw [hsw] <;> cases e <;>
    simp [catchResponse]

/-- Witness for `settle_total_error_mapping` at a concrete environment. -/
theorem settle_total_error_mapping_witness :
    settleWithRouter extraErrorEnv = catchResponse extraErrorEnv ThrownError.extraError ∧
    (settleWithRouter extraErrorEnv).success = false ∧
    (settleWithRouter extraErrorEnv).transaction = "" ∧
    ((settleWithRouter extraErrorEnv).errorReason = some "invalid_payment_requirements" ↔
      ThrownError.extraError = ThrownError.extraError) ∧
    ((settleWithRouter extraErrorEnv).errorReason = some "unexpected_settle_error" ↔
      ThrownError.extraError = ThrownError.other) :=
  settle_total_error_mapping extraErrorEnv ThrownError.extraError false (by decide)

/-- Helper: a settled context key makes `settleAndExecute` revert
`AlreadySettled` with no transfer attempt and no state change. -/
theorem hub_alreadySettled_of_contains (hashCK : String → String → String → String)
    (st : SettlementHub.HubState) (a : SettlementHub.HubArgs) (e : SettlementHub.HubEnv)
    (h : st.settled.contains
      (SettlementHub.calculateContextKey hashCK a.fromAddr a.token a.nonce) = true) :
    SettlementHub.settleAndExecute hashCK st a e =
      { revert := some .alreadySettled, state := st, transferAttempted := false } := by
  unfold SettlementHub.settleAndExecute
  dsimp only
  rw [if_pos h]

/-- Helper: a successful `settleAndExecute` prepends the context key to the
settled set. -/
theorem hub_success_state (hashCK : String → String → String → String)
    (st : SettlementHub.HubState) (a : SettlementHub.HubArgs) (e : SettlementHub.HubEnv) :
    (SettlementHub.settleAndExecute hashCK st a e).revert = none →
    (SettlementHub.settleAndExecute hashCK st a e).state.settled =
      SettlementHub.calculateContextKey hashCK a.fromAddr a.token a.nonce :: st.settled := by
  unfold SettlementHub.settleAndExecute
  dsimp only
  split
  · intro h
    exact absurd h (by simp)
  split
  · intro h
    exact absurd h (by simp)
  split
  · intro h
    exact absurd h (by simp)
  split
  · split
    · intro h
      exact absurd h (by simp)
    split
    · intro h
      exact absurd h (by simp)
    · intro h
      rfl
  · split
    · intro h
      exact absurd h (by simp)
    · intro h
      rfl

/-- The context-key hash used in concrete hub scenarios. -/
def hubHashCK : String → String → String → String :=
  fun fromAddr token nonce => fromAddr ++ "#" ++ token ++ "#" ++ nonce

def sampleHubArgs : SettlementHub.HubArgs :=
  { token := "0xusdc", fromAddr := "0xpayer", value := 1000000, validAfter := 0,
    validBefore := 1893456000, nonce := "0xcommit", signature := "0xsig", hook := "0xhook",
    hookData := "0x" }

def sampleHubEnv : SettlementHub.HubEnv :=
  { transferAuthSucceeds := true, balanceAfterTransfer := 1000000, hookSucceeds := true,
    balanceAfterHook := 0 }

/-- A settlement environment in which the submission call throws — the
shape a replayed request takes when the router's gas estimation reverts
`AlreadySettled`. -/
def replayEnv : SettleEnv := { baseSettleEnv with writeResult := .error () }

/-- Claim C2 counterexample: re-submitting a settled payload makes the hub
revert `AlreadySettled` (no transfer), but the facilitator reports the
replay — whose submission call throws with the router revert — as
`unexpected_settle_error`, not as `already_settled`. -/
theorem replay_reported_counterexample :
    (SettlementHub.settleAndExecute hubHashCK ⟨[]⟩ sampleHubArgs sampleHubEnv).revert = none ∧
    (SettlementHub.settleAndExecute hubHashCK
        (SettlementHub.settleAndExecute hubHashCK ⟨[]⟩ sampleHubArgs sampleHubEnv).state
        sampleHubArgs sampleHubEnv).revert = some .alreadySettled ∧
    (SettlementHub.settleAndExecute hubHashCK
        (SettlementHub.settleAndExecute hubHashCK ⟨[]⟩ sampleHubArgs sampleHubEnv).state
        sampleHubArgs sampleHubEnv).transferAttempted = false ∧
    (settleWithRouter replayEnv).errorReason = some "unexpected_settle_error" ∧
    "unexpected_settle_error" ≠ "already_settled" := by decide

/-- Claim C2 (amended): for every settled payload, re-submission makes the
router's `settleAndExecute` revert `AlreadySettled` before any transfer
and leaves the state unchanged — no second on-chain settlement occurs;
the facilitator, however, never reports `already_settled`: whatever
reason it surfaces for the replay differs from `already_settled`. -/
theorem replay_idempotency (hashCK : String → String → String → String)
    (st : SettlementHub.HubState) (a : SettlementHub.HubArgs)
    (e1 e2 : SettlementHub.HubEnv) (env : SettleEnv) (s : String) :
    (SettlementHub.isSettled st
        (SettlementHub.calculateContextKey hashCK a.fromAddr a.token a.nonce) = true →
      SettlementHub.settleAndExecute hashCK st a e2 =
        { revert := some .alreadySettled, state := st, transferAttempted := false }) ∧
    ((SettlementHub.settleAndExecute hashCK st a e1).revert = none →
      SettlementHub.settleAndExecute hashCK
          (SettlementHub.settleAndExecute hashCK st a e1).state a e2 =
        { revert := some .alreadySettled,
          state := (SettlementHub.settleAndExecute hashCK st a e1).state,
          transferAttempted := false }) ∧
    ((settleWithRouter env).errorReason = some s → s ≠ "already_settled") := by
  refine ⟨?_, ?_, ?_⟩
  · intro h
    exact hub_alreadySettled_of_contains hashCK st a e2 h
  · intro h
    apply hub_alreadySettled_of_contains
    rw [hub_success_state hashCK st a e1 h]
    simp
  · intro h heq
    subst heq
    rcases settleWithRouter_errorReason_cases env _ h with hmem | ⟨r, hr⟩
    · exact absurd hmem (by decide)
    · have hlen := congrArg String.length hr
      rw [String.length_append] at hlen
      have h29 : ("PAYMENT_VERIFICATION_FAILED: ").length = 29 := by decide
      have h15 : ("already_settled").length = 15 := by decide
      omega

/-- Witness for `replay_idempotency` at a concrete settled state and a
concrete replay environment. -/
theorem replay_idempotency_witness :
    SettlementHub.settleAndExecute hubHashCK ⟨["0xpayer#0xusdc#0xcommit"]⟩ sampleHubArgs
        sampleHubEnv =
      { revert := some .alreadySettled, state := ⟨["0xpayer#0xusdc#0xcommit"]⟩,
        transferAttempted := false } ∧
    "unexpected_settle_error" ≠ "already_settled" :=
  ⟨(replay_idempotency hubHashCK ⟨["0xpayer#0xusdc#0xcommit"]⟩ sampleHubArgs sampleHubEnv
      sampleHubEnv replayEnv "unexpected_settle_error").1 (by decide),
    (replay_idempotency hubHashCK ⟨["0xpayer#0xusdc#0xcommit"]⟩ sampleHubArgs sampleHubEnv
      sampleHubEnv replayEnv "unexpected_settle_error").2.2 (by decide)⟩

/-- Claim C3 counterexample: on `filecoin-calibration` with the ordinary
configuration, the computed limit is the hard-coded 150M, which exceeds
the configured maximum plus any hook overhead, and a non-positive native
price does not yield the network-overridable minimum (150,000) either. -/
theorem gas_limit_bounds_counterexample :
    calculateEffectiveGasLimit "filecoin-calibration" 10000 1000000000 3000
        sampleGasCostConfig 6 = 150000000 ∧
    ¬ calculateEffectiveGasLimit "filecoin-calibration" 10000 1000000000 3000
        sampleGasCostConfig 6 ≤
      (sampleGasCostConfig.maxGasLimit : ℤ) + (hookOverheadOf sampleGasCostConfig "custom" : ℤ) ∧
    calculateEffectiveGasLimit "filecoin-calibration" 10000 1000000000 0 sampleGasCostConfig 6 ≠
      (jsOrNat (sampleGasCostConfig.networkMinGasLimit "filecoin-calibration")
          sampleGasCostConfig.minGasLimit : ℤ) := by
  refine ⟨?_, ?_, ?_⟩
  · rw [calculateEffectiveGasLimit_filecoin _ _ _ _ _ _ (by decide) (by decide)]
  · rw [calculateEffectiveGasLimit_filecoin _ _ _ _ _ _ (by decide) (by decide)]
    decide
  · rw [calculateEffectiveGasLimit_filecoin _ _ _ _ _ _ (by decide) (by decide)]
    decide

/-- Claim C3 (amended): for all inputs and every network, the computed
limit satisfies `min' ≤ limit ≤ max(min', max')`, where `min'` is the
network-overridable minimum raised to 150M on networks whose name
contains `filecoin` and `max'` is the configured maximum (150M on those
networks); when `nativeTokenPrice ≤ 0`, the pre-overhead limit equals
exactly `min'`.  At the settlement layer, the hook-type-specific overhead
is added after computation, so the submitted limit lies in
`[min', max(min', max') + hookOverhead]`. -/
theorem gas_limit_bounds (network : String) (facilitatorFee : ℚ) (gasPrice : Nat)
    (nativeTokenPrice : ℚ) (config : GasCostConfig) (tokenDecimals : Nat)
    (env : SettleEnv) (extra : SettlementExtra) (cfg : NetworkConfig) (gcc : GasCostConfig)
    (gp : Nat) (n : ℤ) :
    ((effectiveMinGasLimit network config : ℤ) ≤
        calculateEffectiveGasLimit network facilitatorFee gasPrice nativeTokenPrice config
          tokenDecimals ∧
      calculateEffectiveGasLimit network facilitatorFee gasPrice nativeTokenPrice config
          tokenDecimals ≤
        max (effectiveMinGasLimit network config : ℤ)
          (effectiveMaxGasLimitOf network config : ℤ)) ∧
    (nativeTokenPrice ≤ 0 →
      calculateEffectiveGasLimit network facilitatorFee gasPrice nativeTokenPrice config
          tokenDecimals = (effectiveMinGasLimit network config : ℤ)) ∧
    (env.gasCostConfig = some gcc → env.hasDynamicGasPriceConfig = true →
      env.gasPriceResult = .ok gp → effectiveGasLimitOf env extra cfg = some n →
      (effectiveMinGasLimit env.network gcc : ℤ) ≤ n ∧
        n ≤ max (effectiveMinGasLimit env.network gcc : ℤ)
              (effectiveMaxGasLimitOf env.network gcc : ℤ) +
            (hookOverheadOf gcc (getHookType env.network extra.hook env.networkConfigs) : ℤ)) := by
  refine ⟨⟨calculateEffectiveGasLimit_lower _ _ _ _ _ _,
    calculateEffectiveGasLimit_upper _ _ _ _ _ _⟩,
    calculateEffectiveGasLimit_of_nonpos_price _ _ _ _ _ _, ?_⟩
  intro hgcc hdyn hgp hn
  unfold effectiveGasLimitOf at hn
  rw [hgcc] at hn
  dsimp only at hn
  rw [if_pos hdyn, hgp] at hn
  dsimp only at hn
  rw [Option.some.injEq] at hn
  subst hn
  constructor
  · calc (effectiveMinGasLimit env.network gcc : ℤ) ≤ _ :=
          calculateEffectiveGasLimit_lower env.network extra.facilitatorFee gp
            (jsOrQ (env.nativeTokenPrices env.network) 0) gcc cfg.defaultAsset.decimals
    _ ≤ _ := le_add_of_nonneg_right (by positivity)
  · exact add_le_add_right
      (calculateEffectiveGasLimit_upper env.network extra.facilitatorFee gp
        (jsOrQ (env.nativeTokenPrices env.network) 0) gcc cfg.defaultAsset.decimals) _

/-- A settlement environment with dynamic gas configuration enabled. -/
def dynamicGasEnv : SettleEnv :=
  { baseSettleEnv with
    gasCostConfig := some sampleGasCostConfig
    hasDynamicGasPriceConfig := true
    gasPriceResult := .ok 1000000000
    nativeTokenPrices := fun n => if n = "base-sepolia" then some 3000 else none }

/-- Evaluation of the settlement-layer gas limit at the concrete dynamic
environment. -/
theorem dynamicGasEnv_gasLimit_eval :
    effectiveGasLimitOf dynamicGasEnv sampleExtra sampleNetworkConfig = some 200000 := by
  have hmin : effectiveMinGasLimit "base-sepolia" sampleGasCostConfig = 150000 := by decide
  have hmax : effectiveMaxGasLimitOf "base-sepolia" sampleGasCostConfig = 5000000 := by decide
  have hcalc :
      calculateEffectiveGasLimit "base-sepolia" sampleExtra.facilitatorFee 1000000000
        (jsOrQ (dynamicGasEnv.nativeTokenPrices "base-sepolia") 0) sampleGasCostConfig
        sampleNetworkConfig.defaultAsset.decimals = 150000 := by
    have hq : jsOrQ (dynamicGasEnv.nativeTokenPrices "base-sepolia") 0 = 3000 := by
      simp [dynamicGasEnv, jsOrQ]
    rw [hq, calculateEffectiveGasLimit_eq, if_neg (by norm_num), hmin, hmax]
    have hfee : sampleExtra.facilitatorFee = 10000 := rfl
    have hdec : sampleNetworkConfig.defaultAsset.decimals = 6 := rfl
    have hmargin : sampleGasCostConfig.dynamicGasLimitMargin = 1 / 5 := rfl
    rw [hfee, hdec, hmargin]
    have hfl : ⌊(10000 : ℚ) / 10 ^ 6 * (1 - 1 / 5) / 3000 * 10 ^ 18 / ((1000000000 : ℕ) : ℚ)⌋ =
        (2666 : ℤ) := by
      norm_num
    rw [hfl]
    decide
  unfold effectiveGasLimitOf
  have hg : dynamicGasEnv.gasCostConfig = some sampleGasCostConfig := rfl
  rw [hg]
  dsimp only
  rw [if_pos (show dynamicGasEnv.hasDynamicGasPriceConfig = true from rfl),
    show dynamicGasEnv.gasPriceResult = .ok 1000000000 from rfl]
  dsimp only
  rw [show dynamicGasEnv.network = "base-sepolia" from rfl, hcalc]
  rw [show getHookType "base-sepolia" sampleExtra.hook dynamicGasEnv.networkConfigs =
    "transfer" by decide]
  rfl

/-- Witness for `gas_limit_bounds` at a concrete environment (the computed
settlement-layer limit is `150000 + 50000`). -/
theorem gas_limit_bounds_witness :
    (effectiveMinGasLimit "base-sepolia" sampleGasCostConfig : ℤ) ≤ 200000 ∧
    (200000 : ℤ) ≤
      max (effectiveMinGasLimit "base-sepolia" sampleGasCostConfig : ℤ)
          (effectiveMaxGasLimitOf "base-sepolia" sampleGasCostConfig : ℤ) +
        (hookOverheadOf sampleGasCostConfig
            (getHookType "base-sepolia" "0xhook" dynamicGasEnv.networkConfigs) : ℤ) :=
  (gas_limit_bounds "base-sepolia" 10000 1000000000 3000 sampleGasCostConfig 6 dynamicGasEnv
      sampleExtra sampleNetworkConfig sampleGasCostConfig 1000000000 200000).2.2
    rfl rfl rfl dynamicGasEnv_gasLimit_eval

/-- The fee-engine oracle outcomes used by the fee-floor witness. -/
def sampleFeeEnv : FeeEnv :=
  { networkConfigs := fun n => if n = "base-sepolia" then some sampleNetworkConfig else none
    gasPriceResult := .ok 1000000000
    nativePriceUsed := 3000
    paymentTokenPrice := 1 }

/-- Claim C4: whenever `calculateMinFacilitatorFee` returns, the USD value
of the minimum facilitator fee is at least the per-environment floor:
`$0.001` when the network name marks it as a testnet (contains `sepolia`,
`testnet` or `calibration`) and the configured `minFacilitatorFeeUsd`
(defaulting to `$0.01`) otherwise.  The floor is assumed representable at
six decimals (`toFixed(6)` is the identity on it), which holds for the
built-in values. -/
theorem fee_floor (network hook : String) (tokenDecimals : Nat) (config : GasCostConfig)
    (env : FeeEnv) (r : FeeCalculationResult)
    (hok : calculateMinFacilitatorFee network hook tokenDecimals config env = .ok r)
    (hrepr : roundTo6 (feeFloorUsd network config) = feeFloorUsd network config) :
    feeFloorUsd network config ≤ r.minFacilitatorFeeUSD ∧
    (isTestnetNetwork network = true → feeFloorUsd network config = 1 / 1000) ∧
    (isTestnetNetwork network = false →
      feeFloorUsd network config = jsOrQ (some config.minFacilitatorFeeUsd) (1 / 100)) := by
  refine ⟨calculateMinFacilitatorFee_floor network hook tokenDecimals config env r hok hrepr,
    ?_, ?_⟩
  · intro ht
    unfold feeFloorUsd
    rw [if_pos ht]
  · intro ht
    unfold feeFloorUsd
    rw [if_neg (by rw [ht]; exact Bool.false_ne_true)]

/-- Evaluation of the fee engine at the concrete testnet invocation. -/
theorem sampleFee_eval :
    calculateMinFacilitatorFee "base-sepolia" "0xhook" 6 sampleGasCostConfig sampleFeeEnv =
      .ok
        { minFacilitatorFee := 900000, minFacilitatorFeeUSD := 9 / 10, gasLimit := 200000,
          maxGasLimit := 5000000, gasPrice := 1000000000, gasCostNative := 1 / 5000,
          gasCostUSD := 3 / 5, safetyMultiplier := 3 / 2, finalCostUSD := 9 / 10,
          hookAllowed := true, hookType := "transfer" } := by
  have hfloor : feeFloorUsd "base-sepolia" sampleGasCostConfig = 1 / 1000 := by
    unfold feeFloorUsd
    rw [if_pos (by decide)]
  have hc :
      convertNativeToUsd (((200000 * 1000000000 : ℕ) : ℚ) / 10 ^ 18) "base-sepolia"
        sampleGasCostConfig sampleFeeEnv.nativePriceUsed = .ok (3 / 5) := by
    unfold convertNativeToUsd
    rw [show sampleGasCostConfig.nativeTokenPrice "base-sepolia" = some 3000 from rfl]
    dsimp only
    rw [if_neg (by norm_num),
      show sampleFeeEnv.nativePriceUsed = (3000 : ℚ) from rfl]
    norm_num [roundTo6, round_eq]
  unfold calculateMinFacilitatorFee
  rw [if_neg (by decide :
    ¬ ¬ isHookAllowed "base-sepolia" "0xhook" sampleGasCostConfig = true)]
  rw [show getGasLimit "base-sepolia" "0xhook" sampleGasCostConfig sampleFeeEnv.networkConfigs =
    .ok 200000 by decide]
  dsimp only
  rw [show sampleFeeEnv.gasPriceResult = .ok 1000000000 from rfl]
  dsimp only
  rw [hc]
  dsimp only
  rw [hfloor,
    show getHookType "base-sepolia" "0xhook" sampleFeeEnv.networkConfigs = "transfer" by decide,
    show sampleGasCostConfig.safetyMultiplier = (3 : ℚ) / 2 from rfl,
    if_neg (by norm_num [roundTo6, round_eq])]
  rw [show roundTo6 (3 / 5 * (3 / 2)) = (9 : ℚ) / 10 by norm_num [roundTo6, round_eq],
    show sampleFeeEnv.paymentTokenPrice = (1 : ℚ) from rfl]
  rw [show convertUsdToToken ((9 : ℚ) / 10) 6 1 = 900000 by
    norm_num [convertUsdToToken]]
  rw [show sampleGasCostConfig.maxGasLimit = 5000000 from rfl]
  rw [show (((200000 * 1000000000 : ℕ) : ℚ) / 10 ^ 18) = 1 / 5000 by norm_num]

/-- Witness for `fee_floor` at a concrete testnet invocation: the computed
fee of `$0.90` exceeds the `$0.001` testnet floor. -/
theorem fee_floor_witness :
    feeFloorUsd "base-sepolia" sampleGasCostConfig ≤ (9 : ℚ) / 10 ∧
    feeFloorUsd "base-sepolia" sampleGasCostConfig = 1 / 1000 := by
  have hrepr : roundTo6 (feeFloorUsd "base-sepolia" sampleGasCostConfig) =
      feeFloorUsd "base-sepolia" sampleGasCostConfig := by
    rw [show feeFloorUsd "base-sepolia" sampleGasCostConfig = 1 / 1000 by
      unfold feeFloorUsd
      rw [if_pos (by decide)]]
    norm_num [roundTo6, round_eq]
  have h :=
    fee_floor "base-sepolia" "0xhook" 6 sampleGasCostConfig sampleFeeEnv
      { minFacilitatorFee := 900000, minFacilitatorFeeUSD := 9 / 10, gasLimit := 200000,
        maxGasLimit := 5000000, gasPrice := 1000000000, gasCostNative := 1 / 5000,
        gasCostUSD := 3 / 5, safetyMultiplier := 3 / 2, finalCostUSD := 9 / 10,
        hookAllowed := true, hookType := "transfer" }
      sampleFee_eval hrepr
  exact ⟨h.1, h.2.1 (by decide)⟩

/-- Claim C5: for every network whose name contains `filecoin`,
`calculateEffectiveGasLimit` returns exactly 150,000,000 regardless of
fee, gas price and native price (provided no network minimum above 150M
is configured), and when no gas-cost config is present the settlement
engine uses the fixed 150M limit. -/
theorem filecoin_gas_limit :
    (∀ (network : String) (facilitatorFee : ℚ) (gasPrice : Nat) (nativeTokenPrice : ℚ)
        (config : GasCostConfig) (tokenDecimals : Nat),
      strIncludes network "filecoin" = true →
      jsOrNat (config.networkMinGasLimit network) config.minGasLimit ≤ 150000000 →
      calculateEffectiveGasLimit network facilitatorFee gasPrice nativeTokenPrice config
          tokenDecimals = 150000000) ∧
    (∀ (env : SettleEnv) (extra : SettlementExtra) (cfg : NetworkConfig),
      strIncludes env.network "filecoin" = true → env.gasCostConfig = none →
      effectiveGasLimitOf env extra cfg = some 150000000) := by
  refine ⟨fun network fee gp price cfg d hfil hmin =>
    calculateEffectiveGasLimit_filecoin network fee gp price cfg d hfil hmin, ?_⟩
  intro env extra cfg hfil hnone
  unfold effectiveGasLimitOf
  rw [hnone]
  dsimp only
  rw [if_pos hfil]

/-- A settlement environment on a Filecoin-family network with no gas-cost
configuration. -/
def filecoinEnv : SettleEnv :=
  { baseSettleEnv with network := "filecoin-calibration", gasCostConfig := none }

/-- Witness for `filecoin_gas_limit` at concrete inputs. -/
theorem filecoin_gas_limit_witness :
    calculateEffectiveGasLimit "filecoin-calibration" 10000 1000000000 3000
        sampleGasCostConfig 6 = 150000000 ∧
    effectiveGasLimitOf filecoinEnv sampleExtra sampleNetworkConfig = some 150000000 :=
  ⟨filecoin_gas_limit.1 "filecoin-calibration" 10000 1000000000 3000 sampleGasCostConfig 6
      (by decide) (by decide),
    filecoin_gas_limit.2 filecoinEnv sampleExtra sampleNetworkConfig (by decide) rfl⟩

/-- Claim C6: in both the verifier and the settlement engine, an SDK
verification failure with `invalidReason` exactly `invalid_scheme` is
tolerated — the verifier marks the result valid, clears the reason and
populates `payer` from `authorization.from` when missing, and the
settlement engine proceeds past verification; every other `invalidReason`
is not swallowed: the verifier returns it unchanged and the settlement
engine returns the (mapped) failure response without submitting. -/
theorem invalid_scheme_tolerated :
    (∀ (venv : VerifyEnv) (v : VerifyResult) (f : String),
      venv.reqFieldsPresent = true → venv.payloadFieldsPresent = true →
      venv.supportedNetworks.contains venv.network = true →
      venv.verifyOutcome = .ok v → v.isValid = false →
      v.invalidReason = some "invalid_scheme" → v.payer = none →
      venv.payloadAuthFrom = some f → venv.balanceChecker = none →
      postVerify venv = .json { isValid := true, invalidReason := none, payer := some f }) ∧
    (∀ (env : SettleEnv) (v : VerifyResult) (extra : SettlementExtra) (cfg : NetworkConfig),
      env.isEvmSigner = true →
      validateTokenAddress env.network env.asset env.networkConfigs = .ok cfg →
      env.extraParse = .ok extra →
      validateSettlementRouter env.network extra.settlementRouter env.allowedRouters = .ok () →
      env.hasAuthorization = true → env.hasSignature = true →
      env.verifyOutcome = .ok v → v.isValid = false →
      v.invalidReason = some "invalid_scheme" →
      settlePreCommit env = .ok (extra, cfg)) ∧
    (∀ (venv : VerifyEnv) (v : VerifyResult) (r : String),
      venv.reqFieldsPresent = true → venv.payloadFieldsPresent = true →
      venv.supportedNetworks.contains venv.network = true →
      venv.verifyOutcome = .ok v → v.isValid = false → v.invalidReason = some r →
      r ≠ "invalid_scheme" →
      postVerify venv = .json v) ∧
    (∀ (env : SettleEnv) (v : VerifyResult) (r : String) (extra : SettlementExtra)
        (cfg : NetworkConfig),
      env.isEvmSigner = true →
      validateTokenAddress env.network env.asset env.networkConfigs = .ok cfg →
      env.extraParse = .ok extra →
      validateSettlementRouter env.network extra.settlementRouter env.allowedRouters = .ok () →
      env.hasAuthorization = true → env.hasSignature = true →
      env.verifyOutcome = .ok v → v.isValid = false → v.invalidReason = some r →
      r ≠ "invalid_scheme" →
      settleWithRouter env = verificationFailureResponse env v ∧
        (verificationFailureResponse env v).success = false ∧ submittedTx env = false) := by
  refine ⟨?_, ?_, ?_, ?_⟩
  · intro venv v f hreq hpl hnet hvo hinv hreason hpayer hfrom hbal
    have hmem : venv.network ∈ venv.supportedNetworks := by simpa using hnet
    simp [postVerify, tolerateInvalidScheme, applyBalanceCheck, jsOrStr, hreq, hpl, hmem, hvo,
      hinv, hreason, hpayer, hfrom, hbal]
  · intro env v extra cfg hevm htoken hextra hrouter hauth hsigp hvo hinv hreason
    unfold settlePreCommit
    rw [if_neg (by simp [hevm]), htoken]
    dsimp only
    rw [hextra]
    dsimp only
    rw [hrouter]
    dsimp only
    rw [if_neg (by simp [hauth]), if_neg (by simp [hsigp]), hvo]
    dsimp only
    rw [if_pos (by simp [hinv]), if_pos (by rw [hreason]; decide)]
  · intro venv v r hreq hpl hnet hvo hinv hreason hr
    have hmem : venv.network ∈ venv.supportedNetworks := by simpa using hnet
    simp [postVerify, tolerateInvalidScheme, applyBalanceCheck, hreq, hpl, hmem, hvo, hinv,
      hreason, hr]
  · intro env v r extra cfg hevm htoken hextra hrouter hauth hsigp hvo hinv hreason hr
    have hjs : jsOrStr v.invalidReason "" ≠ "invalid_scheme" := by
      rw [hreason]
      unfold jsOrStr
      dsimp only
      split
      · decide
      · exact hr
    have hpre : settlePreCommit env = .error (.inr (verificationFailureResponse env v)) := by
      unfold settlePreCommit
      rw [if_neg (by simp [hevm]), htoken]
      dsimp only
      rw [hextra]
      dsimp only
      rw [hrouter]
      dsimp only
      rw [if_neg (by simp [hauth]), if_neg (by simp [hsigp]), hvo]
      dsimp only
      rw [if_pos (by simp [hinv]), if_neg hjs]
    have hrun : settleRun env = .response (verificationFailureResponse env v) false := by
      unfold settleRun
      rw [hpre]
    exact ⟨by unfold settleWithRouter; rw [hrun], rfl, by unfold submittedTx; rw [hrun]⟩

/-- A verify-route environment whose SDK verification fails with
`invalid_scheme` and no payer. -/
def schemeVerifyEnv : VerifyEnv :=
  { baseVerifyEnv with
    verifyOutcome := .ok { isValid := false, invalidReason := some "invalid_scheme",
                           payer := none } }

/-- A settlement environment whose SDK verification fails with
`invalid_scheme`. -/
def schemeSettleEnv : SettleEnv :=
  { baseSettleEnv with
    verifyOutcome := .ok { isValid := false, invalidReason := some "invalid_scheme",
                           payer := some "0xpayer" } }

/-- A verify-route environment whose SDK verification fails with an
unrelated reason. -/
def badReasonVerifyEnv : VerifyEnv :=
  { baseVerifyEnv with
    verifyOutcome := .ok { isValid := false, invalidReason := some "bad_thing",
                           payer := some "0xpayer" } }

/-- Witness for `invalid_scheme_tolerated` at concrete environments. -/
theorem invalid_scheme_tolerated_witness :
    postVerify schemeVerifyEnv =
      .json { isValid := true, invalidReason := none, payer := some "0xpayer" } ∧
    settlePreCommit schemeSettleEnv = .ok (sampleExtra, sampleNetworkConfig) ∧
    postVerify badReasonVerifyEnv =
      .json { isValid := false, invalidReason := some "bad_thing", payer := some "0xpayer" } ∧
    settleWithRouter expiredEnv =
      verificationFailureResponse expiredEnv
        { isValid := false, invalidReason := some "authorization_valid_before",
          payer := some "0xpayer" } :=
  ⟨invalid_scheme_tolerated.1 schemeVerifyEnv _ "0xpayer" rfl rfl (by decide) rfl rfl rfl rfl
      rfl rfl,
    invalid_scheme_tolerated.2.1 schemeSettleEnv _ sampleExtra sampleNetworkConfig rfl
      (by decide) rfl (by decide) rfl rfl rfl rfl rfl,
    invalid_scheme_tolerated.2.2.1 badReasonVerifyEnv _ "bad_thing" rfl rfl (by decide) rfl rfl
      rfl (by decide),
    (invalid_scheme_tolerated.2.2.2 expiredEnv _ "authorization_valid_before" sampleExtra
        sampleNetworkConfig rfl (by decide) rfl (by decide) rfl rfl rfl rfl rfl
        (by decide)).1⟩

/-- Claim C7: an insufficient balance short-circuits both entry points —
verify returns `insufficient_funds` and settle returns
`INSUFFICIENT_FUNDS` with an empty transaction and no submission — while
a throwing balance check is swallowed: the prior verification outcome is
kept and settlement proceeds to submission. -/
theorem balance_short_circuit :
    (∀ (venv : VerifyEnv) (v : VerifyResult) (bc : BalanceCheckResult),
      venv.reqFieldsPresent = true → venv.payloadFieldsPresent = true →
      venv.supportedNetworks.contains venv.network = true →
      venv.verifyOutcome = .ok v → v.isValid = true →
      venv.balanceChecker = some (.ok bc) → bc.hasSufficient = false →
      postVerify venv =
        .json { isValid := false, invalidReason := some "insufficient_funds",
                payer := v.payer }) ∧
    (∀ (env : SettleEnv) (extra : SettlementExtra) (cfg : NetworkConfig)
        (bc : BalanceCheckResult),
      settlePreCommit env = .ok (extra, cfg) →
      strToLower env.authorization.nonce =
        strToLower (env.commitFn (commitParamsOf env extra cfg)) →
      env.balanceChecker = some (.ok bc) → bc.hasSufficient = false →
      settleWithRouter env =
        { success := false, errorReason := some "INSUFFICIENT_FUNDS", transaction := "",
          network := env.payloadNetwork, payer := env.authorization.fromAddr } ∧
        submittedTx env = false) ∧
    (∀ (venv : VerifyEnv) (v : VerifyResult),
      venv.reqFieldsPresent = true → venv.payloadFieldsPresent = true →
      venv.supportedNetworks.contains venv.network = true →
      venv.verifyOutcome = .ok v → v.isValid = true →
      venv.balanceChecker = some (.error ()) →
      postVerify venv = .json v) ∧
    (∀ (env : SettleEnv) (extra : SettlementExtra) (cfg : NetworkConfig),
      settlePreCommit env = .ok (extra, cfg) →
      strToLower env.authorization.nonce =
        strToLower (env.commitFn (commitParamsOf env extra cfg)) →
      env.balanceChecker = some (.error ()) →
      settleRun env = settleSubmit env) := by
  refine ⟨?_, ?_, ?_, ?_⟩
  · intro venv v bc hreq hpl hnet hvo hval hbal hins
    have hmem : venv.network ∈ venv.supportedNetworks := by simpa using hnet
    simp [postVerify, tolerateInvalidScheme, applyBalanceCheck, hreq, hpl, hmem, hvo, hval,
      hbal, hins]
  · intro env extra cfg bc hpre hnonce hbal hins
    have hrun : settleRun env =
        .response
          { success := false, errorReason := some "INSUFFICIENT_FUNDS", transaction := "",
            network := env.payloadNetwork, payer := env.authorization.fromAddr } false := by
      unfold settleRun
      rw [hpre]
      dsimp only
      rw [if_neg (not_not_intro hnonce), hbal]
      dsimp only
      rw [if_pos (by simp [hins])]
    exact ⟨by unfold settleWithRouter; rw [hrun], by unfold submittedTx; rw [hrun]⟩
  · intro venv v hreq hpl hnet hvo hval hbal
    have hmem : venv.network ∈ venv.supportedNetworks := by simpa using hnet
    simp [postVerify, tolerateInvalidScheme, applyBalanceCheck, hreq, hpl, hmem, hvo, hval, hbal]
  · intro env extra cfg hpre hnonce hbal
    unfold settleRun
    rw [hpre]
    dsimp only
    rw [if_neg (not_not_intro hnonce), hbal]

/-- A verify-route environment whose balance check reports an insufficient
balance. -/
def insufficientVerifyEnv : VerifyEnv :=
  { baseVerifyEnv with
    balanceChecker :=
      some (.ok { hasSufficient := false, balance := 500000, required := 1000000,
                  cached := false }) }

/-- A settlement environment whose defensive balance check reports an
insufficient balance. -/
def insufficientSettleEnv : SettleEnv :=
  { baseSettleEnv with
    balanceChecker :=
      some (.ok { hasSufficient := false, balance := 500000, required := 1000000,
                  cached := false }) }

/-- A verify-route environment whose balance check throws. -/
def balanceErrorVerifyEnv : VerifyEnv :=
  { baseVerifyEnv with balanceChecker := some (.error ()) }

/-- A settlement environment whose defensive balance check throws. -/
def balanceErrorSettleEnv : SettleEnv :=
  { baseSettleEnv with balanceChecker := some (.error ()) }

/-- Witness for `balance_short_circuit` at concrete environments. -/
theorem balance_short_circuit_witness :
    postVerify insufficientVerifyEnv =
      .json { isValid := false, invalidReason := some "insufficient_funds",
              payer := some "0xpayer" } ∧
    settleWithRouter insufficientSettleEnv =
      { success := false, errorReason := some "INSUFFICIENT_FUNDS", transaction := "",
        network := "base-sepolia", payer := "0xpayer" } ∧
    submittedTx insufficientSettleEnv = false ∧
    postVerify balanceErrorVerifyEnv =
      .json { isValid := true, invalidReason := none, payer := some "0xpayer" } ∧
    settleRun balanceErrorSettleEnv = settleSubmit balanceErrorSettleEnv :=
  have hb :=
    balance_short_circuit.2.1 insufficientSettleEnv sampleExtra sampleNetworkConfig
      { hasSufficient := false, balance := 500000, required := 1000000, cached := false }
      (by decide) (by decide) rfl rfl
  ⟨balance_short_circuit.1 insufficientVerifyEnv _
      { hasSufficient := false, balance := 500000, required := 1000000, cached := false }
      rfl rfl (by decide) rfl rfl rfl rfl,
    hb.1, hb.2,
    balance_short_circuit.2.2.1 balanceErrorVerifyEnv _ rfl rfl (by decide) rfl rfl rfl,
    balance_short_circuit.2.2.2 balanceErrorSettleEnv sampleExtra sampleNetworkConfig
      (by decide) (by decide) rfl⟩

end X402
